import Mathlib

/-!
Shallow embedding of `src/code_execution.py` (heroku/mcp-code-exec-node).

The pipeline has four functions:
  * `run_command cmd cwd` — wraps `subprocess.run(cmd, capture_output=True,
    text=True, timeout=60, cwd=cwd)`, strips the captured streams, maps
    `TimeoutExpired` to a fixed outcome, and lets every other spawn fault
    propagate.
  * `install_dependencies packages install_cmd_path` — no-op success for an
    empty or absent package list, otherwise `run_command` on
    `[install_cmd_path, "install", *packages]` with no working directory.
  * `run_in_tempdir code packages` — `mkdtemp`, write `package.json`, install,
    on success write `script.js` and run it with the temp dir as cwd, and
    `finally: shutil.rmtree(temp_dir)`.
  * `code_exec_node code packages use_temp_dir` — the public entry point.

External effects (process spawning, file writes, directory removal) are
modelled by an `Env` oracle plus an event trace, so that claims about what the
pipeline spawns, writes, and leaves behind are statable.  Python exceptions
are modelled by `Except String`: an `Except.error` is an exception crossing
the function boundary.
-/

/-- The three-field result record every pipeline stage returns:
`{"returncode": ..., "stdout": ..., "stderr": ...}`. -/
structure Outcome where
  returncode : Int
  stdout : String
  stderr : String
deriving DecidableEq, Repr

/-- What `subprocess.run` does for one spawn attempt: the child completes with
an exit status and raw (untrimmed) streams, or the 60-second budget expires
(`subprocess.TimeoutExpired`, carrying whatever the child wrote so far), or
the spawn itself faults (e.g. `FileNotFoundError` for a missing executable). -/
inductive SpawnBehavior where
  | completes (returncode : Int) (stdout stderr : String)
  | timesOut (outSoFar errSoFar : String)
  | faults (message : String)
deriving DecidableEq, Repr

/-- The environment one call runs in: the behavior of each spawn attempt
(command, working directory, timeout budget), the name `tempfile.mkdtemp`
returns, which file writes raise `OSError`, and whether `shutil.rmtree`
raises. -/
structure Env where
  spawn : List String → Option String → Nat → SpawnBehavior
  tempDirName : String
  writeFaults : String → Bool
  rmtreeFaults : Bool

/-- Observable external actions of one call, in order. -/
inductive Event where
  | spawnAttempt (cmd : List String) (cwd : Option String)
  | wroteFile (path : String) (content : String)
  | createdDir (path : String)
  | removedDir (path : String)
deriving DecidableEq, Repr

/-- The wall-clock budget `run_command` passes to `subprocess.run`. -/
def timeoutSeconds : Nat := 60

/-- Whitespace as Python's `str.strip()` sees it (the ASCII cases). -/
def isWs (c : Char) : Bool :=
  c == ' ' || c == '\t' || c == '\n' || c == '\r' || c == '\x0b' || c == '\x0c'

/-- Drop leading whitespace characters. -/
def dropWs : List Char → List Char
  | [] => []
  | c :: cs => if isWs c then dropWs cs else c :: cs

/-- Python `str.strip()` on the character list: drop leading whitespace, then
drop trailing whitespace via a double reverse. -/
def pyStripChars (l : List Char) : List Char :=
  (dropWs (dropWs l).reverse).reverse

/-- Python `str.strip()`. -/
def pyStrip (s : String) : String :=
  String.mk (pyStripChars s.data)

/-- `run_command(cmd, cwd)`: one spawn attempt; on completion the streams are
stripped, on `TimeoutExpired` the fixed timeout outcome is returned, and any
other spawn fault propagates as an exception (`Except.error`). -/
def run_command (env : Env) (cmd : List String) (cwd : Option String) :
    Except String Outcome × List Event :=
  (match env.spawn cmd cwd timeoutSeconds with
    | SpawnBehavior.completes rc out err =>
        Except.ok ⟨rc, pyStrip out, pyStrip err⟩
    | SpawnBehavior.timesOut _ _ =>
        Except.ok ⟨-2, "", "Error: Execution timed out"⟩
    | SpawnBehavior.faults msg => Except.error msg,
   [Event.spawnAttempt cmd cwd])

/-- `install_dependencies(packages, install_cmd_path)`: `if not packages`
(None or the empty list) return the no-op success record without spawning,
otherwise run `[install_cmd_path, "install", *packages]` with no cwd. -/
def install_dependencies (env : Env) (packages : Option (List String))
    (install_cmd_path : String) : Except String Outcome × List Event :=
  match packages with
  | none => (Except.ok ⟨0, "", ""⟩, [])
  | some [] => (Except.ok ⟨0, "", ""⟩, [])
  | some ps => run_command env (install_cmd_path :: "install" :: ps) none

/-- The exact text written to `package.json` in the temp dir. -/
def pkgJsonContent : String := "\x7b\"type\": \"module\"\x7d"

/-- The install-result check that both `run_in_tempdir` and the inline branch
of `code_exec_node` perform verbatim: an install exception propagates; a
nonzero install exit code short-circuits with the install's exit code and
stdout and the synthesized `"Dependency install failed:\n..."` stderr, and
nothing after the check runs; otherwise the continuation's result stands,
its events following the install's. -/
def installGate (inst cont : Except String Outcome × List Event) :
    Except String Outcome × List Event :=
  match inst.1 with
  | Except.error e => (Except.error e, inst.2)
  | Except.ok r =>
    if r.returncode ≠ 0 then
      (Except.ok ⟨r.returncode, r.stdout,
          "Dependency install failed:\n" ++ r.stderr⟩, inst.2)
    else (cont.1, inst.2 ++ cont.2)

/-- What `run_in_tempdir` does after a successful install: write the snippet
to `script.js` (a write fault raises) and run `["node", <script>]` with the
temp dir as the working directory. -/
def scriptCont (env : Env) (td : String) (code : String) :
    Except String Outcome × List Event :=
  if env.writeFaults (td ++ "/script.js") then
    (Except.error "write failed", [])
  else
    let run := run_command env ["node", td ++ "/script.js"] (some td)
    (run.1, Event.wroteFile (td ++ "/script.js") code :: run.2)

/-- The `try:` block of `run_in_tempdir`: write `package.json` (a write fault
raises), call `install_dependencies(packages, install_cmd_path="npm")` — with
no working directory argument — and gate on its result, the continuation
being the script write-and-run. -/
def run_in_tempdir_body (env : Env) (td : String) (code : String)
    (packages : Option (List String)) : Except String Outcome × List Event :=
  if env.writeFaults (td ++ "/package.json") then
    (Except.error "write failed", [])
  else
    let gated := installGate (install_dependencies env packages "npm")
      (scriptCont env td code)
    (gated.1, Event.wroteFile (td ++ "/package.json") pkgJsonContent :: gated.2)

/-- `run_in_tempdir(code, packages)`: `mkdtemp`, then the body under
`try: ... finally: shutil.rmtree(temp_dir)`.  Python semantics of `finally`:
if `rmtree` raises, its exception propagates and the body's result (return
value or exception) is discarded; if `rmtree` succeeds, the directory is
removed and the body's result stands. -/
def run_in_tempdir (env : Env) (code : String)
    (packages : Option (List String)) : Except String Outcome × List Event :=
  let td := env.tempDirName
  let body := run_in_tempdir_body env td code packages
  if env.rmtreeFaults then
    (Except.error "rmtree failed", Event.createdDir td :: body.2)
  else
    (body.1, Event.createdDir td :: body.2 ++ [Event.removedDir td])

/-- `code_exec_node(code, packages=None, use_temp_dir=False)`: the public
entry point.  Temp-dir mode delegates to `run_in_tempdir`; inline mode
installs (no cwd), short-circuits on a nonzero install exit code with the
synthesized stderr, and otherwise runs `["node", "-e", code]` with no cwd. -/
def code_exec_node (env : Env) (code : String)
    (packages : Option (List String)) (use_temp_dir : Bool) :
    Except String Outcome × List Event :=
  if use_temp_dir then
    run_in_tempdir env code packages
  else
    installGate (install_dependencies env packages "npm")
      (run_command env ["node", "-e", code] none)

/-- One step of directory-existence tracking over the event trace. -/
def dirStep (td : String) (b : Bool) (e : Event) : Bool :=
  match e with
  | Event.createdDir d => if d = td then true else b
  | Event.removedDir d => if d = td then false else b
  | _ => b

/-- Whether directory `td` exists after the trace, starting from absent. -/
def dirExistsAfter (td : String) (events : List Event) : Bool :=
  events.foldl (dirStep td) false

/-- `true` when the list does not start with a whitespace character. -/
def noLeadWs : List Char → Bool
  | [] => true
  | c :: _ => !(isWs c)

/-- No leading and no trailing whitespace. -/
def noEdgeWs (l : List Char) : Bool :=
  noLeadWs l && noLeadWs l.reverse

/-- An event that writes the snippet file `script.js` of workspace `td`. -/
def writesScript (td : String) : Event → Bool
  | Event.wroteFile p _ => decide (p = td ++ "/script.js")
  | _ => false

/-- An event that spawns the interpreter (a command whose executable is
`node`). -/
def runsNode : Event → Bool
  | Event.spawnAttempt cmd _ => decide (cmd.head? = some "node")
  | _ => false

/-- An event that writes any file. -/
def writesAnyFile : Event → Bool
  | Event.wroteFile _ _ => true
  | _ => false

/-- A constant environment: every spawn behaves as `b`, every file write
faults iff `wf`, `rmtree` faults iff `rf`. -/
def constEnv (b : SpawnBehavior) (wf rf : Bool) : Env :=
  ⟨fun _ _ _ => b, "/tmp/tmpw", fun _ => wf, rf⟩

/-! ### Facts about the `str.strip()` model -/

theorem dropWs_noLead (l : List Char) : noLeadWs (dropWs l) = true := by
  induction l with
  | nil => rfl
  | cons c cs ih =>
    cases hc : isWs c with
    | true => simpa [dropWs, hc] using ih
    | false => simp [dropWs, hc, noLeadWs]

theorem dropWs_suffix (l : List Char) : ∃ t, t ++ dropWs l = l := by
  induction l with
  | nil => exact ⟨[], rfl⟩
  | cons c cs ih =>
    cases hc : isWs c with
    | true =>
      obtain ⟨t, ht⟩ := ih
      exact ⟨c :: t, by simp [dropWs, hc, ht]⟩
    | false => exact ⟨[], by simp [dropWs, hc]⟩

theorem noLeadWs_append (p q : List Char) (h : noLeadWs (p ++ q) = true) :
    noLeadWs p = true := by
  cases p with
  | nil => rfl
  | cons c cs => simpa [noLeadWs] using h

theorem noEdgeWs_pyStripChars (l : List Char) :
    noEdgeWs (pyStripChars l) = true := by
  rw [noEdgeWs, Bool.and_eq_true]
  refine ⟨?_, ?_⟩
  · obtain ⟨t, ht⟩ := dropWs_suffix (dropWs l).reverse
    have hrev : pyStripChars l ++ t.reverse = dropWs l := by
      have := congrArg List.reverse ht
      simpa [pyStripChars, List.reverse_append] using this
    exact noLeadWs_append _ _ (hrev ▸ dropWs_noLead l)
  · rw [pyStripChars, List.reverse_reverse]
    exact dropWs_noLead _

theorem noEdgeWs_pyStrip (s : String) : noEdgeWs (pyStrip s).data = true :=
  noEdgeWs_pyStripChars s.data

/-! ### Stream hygiene of `run_command` results -/

theorem run_command_ok_noEdge (env : Env) (cmd : List String)
    (cwd : Option String) (o : Outcome)
    (h : (run_command env cmd cwd).1 = Except.ok o) :
    noEdgeWs o.stdout.data = true ∧ noEdgeWs o.stderr.data = true := by
  rw [run_command] at h
  cases hb : env.spawn cmd cwd timeoutSeconds <;> rw [hb] at h
  · cases h
    exact ⟨noEdgeWs_pyStrip _, noEdgeWs_pyStrip _⟩
  · cases h
    exact ⟨by decide, by decide⟩
  · cases h

/-! ### The install gate -/

theorem installGate_error (inst cont : Except String Outcome × List Event)
    (e : String) (h : inst.1 = Except.error e) :
    installGate inst cont = (Except.error e, inst.2) := by
  unfold installGate
  rw [h]

theorem installGate_fail (inst cont : Except String Outcome × List Event)
    (r : Outcome) (h : inst.1 = Except.ok r) (hr : r.returncode ≠ 0) :
    installGate inst cont =
      (Except.ok ⟨r.returncode, r.stdout,
          "Dependency install failed:\n" ++ r.stderr⟩, inst.2) := by
  unfold installGate
  rw [h]
  simp [hr]

theorem installGate_pass (inst cont : Except String Outcome × List Event)
    (r : Outcome) (h : inst.1 = Except.ok r) (hr : r.returncode = 0) :
    installGate inst cont = (cont.1, inst.2 ++ cont.2) := by
  unfold installGate
  rw [h]
  simp [hr]

theorem install_ok_nonzero_packages (env : Env) (packages : Option (List String))
    (p : String) (r : Outcome)
    (h : (install_dependencies env packages p).1 = Except.ok r)
    (hr : r.returncode ≠ 0) : ∃ q qs, packages = some (q :: qs) := by
  cases packages with
  | none =>
    injection h with h2
    rw [← h2] at hr
    exact absurd rfl hr
  | some l =>
    cases l with
    | nil =>
      injection h with h2
      rw [← h2] at hr
      exact absurd rfl hr
    | cons q qs => exact ⟨q, qs, rfl⟩

theorem pkgjson_ne_script (td : String) :
    (td ++ "/package.json" : String) ≠ td ++ "/script.js" := by
  intro hEq
  have h2 := congrArg String.length hEq
  rw [String.length_append, String.length_append] at h2
  simp at h2
  exact absurd h2 (by decide)

/-! ### Claim theorems -/

/-- Claim C6: with an empty or absent package list, `install_dependencies`
spawns no process (empty event trace) and returns exactly
`{returncode: 0, stdout: "", stderr: ""}`; moreover `packages=None` and
`packages=[]` give identical results through the public entry point. -/
theorem install_dependencies_noop_on_empty (env : Env) (p : String) :
    install_dependencies env none p = (Except.ok ⟨0, "", ""⟩, []) ∧
    install_dependencies env (some []) p = (Except.ok ⟨0, "", ""⟩, []) ∧
    ∀ (code : String) (utd : Bool),
      code_exec_node env code none utd = code_exec_node env code (some []) utd := by
  refine ⟨rfl, rfl, ?_⟩
  intro code utd
  cases utd <;> rfl

/-- Claim C5: when the spawn exceeds the fixed 60-second budget, the child is
terminated and `run_command` returns exactly
`{returncode: -2, stdout: "", stderr: "Error: Execution timed out"}`; the
sentinel `-2` is distinct from every real (nonnegative) process exit code. -/
theorem run_command_timeout_outcome (env : Env) (cmd : List String)
    (cwd : Option String) (outSoFar errSoFar : String)
    (h : env.spawn cmd cwd timeoutSeconds = SpawnBehavior.timesOut outSoFar errSoFar) :
    (run_command env cmd cwd).1 =
      Except.ok ⟨-2, "", "Error: Execution timed out"⟩ ∧
    timeoutSeconds = 60 ∧ ∀ n : Nat, (n : Int) ≠ -2 := by
  refine ⟨?_, rfl, ?_⟩
  · rw [run_command, h]
  · intro n hn
    omega

/-- Witness for C5: a command that times out after writing partial output. -/
theorem run_command_timeout_outcome_witness :
    (constEnv (SpawnBehavior.timesOut "some partial" "output") false false).spawn
        ["node", "-e", "for(;;);"] none timeoutSeconds =
      SpawnBehavior.timesOut "some partial" "output" ∧
    (run_command (constEnv (SpawnBehavior.timesOut "some partial" "output") false false)
        ["node", "-e", "for(;;);"] none).1 =
      Except.ok ⟨-2, "", "Error: Execution timed out"⟩ :=
  ⟨rfl, (run_command_timeout_outcome _ _ _ _ _ rfl).1⟩

/-- Claim C10: on timeout, whatever the child wrote before being killed is
discarded — two environments whose children produced different partial
streams yield the same fixed timeout outcome, with empty stdout and the fixed
diagnostic stderr. -/
theorem timeout_discards_child_output (env1 env2 : Env) (cmd : List String)
    (cwd : Option String) (o1 e1 o2 e2 : String)
    (h1 : env1.spawn cmd cwd timeoutSeconds = SpawnBehavior.timesOut o1 e1)
    (h2 : env2.spawn cmd cwd timeoutSeconds = SpawnBehavior.timesOut o2 e2) :
    (run_command env1 cmd cwd).1 = (run_command env2 cmd cwd).1 ∧
    (run_command env1 cmd cwd).1 =
      Except.ok ⟨-2, "", "Error: Execution timed out"⟩ := by
  rw [run_command, run_command, h1, h2]
  exact ⟨rfl, rfl⟩

/-- Witness for C10: two runs whose children wrote different partial output
before the timeout produce identical outcomes. -/
theorem timeout_discards_child_output_witness :
    (run_command (constEnv (SpawnBehavior.timesOut "A" "B") false false)
        ["node", "-e", "x"] none).1 =
      (run_command (constEnv (SpawnBehavior.timesOut "C" "D") false false)
        ["node", "-e", "x"] none).1 :=
  (timeout_discards_child_output _ _ _ _ _ _ _ _ rfl rfl).1

/-- Counterexample to C3: a spawn failure that is not a timeout (here a
missing executable, Python `FileNotFoundError`) makes `run_command` raise —
the result is an exception (`Except.error`) crossing the function boundary,
not a well-formed three-field outcome record. -/
theorem run_command_raises_on_spawn_fault :
    (run_command
        (constEnv (SpawnBehavior.faults "FileNotFoundError: missing executable node")
          false false)
        ["node", "-e", "1"] none).1 =
      Except.error "FileNotFoundError: missing executable node" := rfl

/-- Claim C3 as amended: only a timeout is converted into an outcome record;
every other spawn failure propagates out of `run_command` as an unhandled
fault carrying the spawn error, reaching the caller. -/
theorem run_command_propagates_spawn_fault (env : Env) (cmd : List String)
    (cwd : Option String) (msg : String)
    (h : env.spawn cmd cwd timeoutSeconds = SpawnBehavior.faults msg) :
    (run_command env cmd cwd).1 = Except.error msg := by
  rw [run_command, h]

/-- Witness for the amended C3: a permission error propagates unchanged. -/
theorem run_command_propagates_spawn_fault_witness :
    (run_command (constEnv (SpawnBehavior.faults "PermissionError: denied") false false)
        ["npm", "install", "leftpad"] none).1 =
      Except.error "PermissionError: denied" :=
  run_command_propagates_spawn_fault _ _ _ _ rfl

/-- Claim C1: whenever `shutil.rmtree` itself does not fault, the disposable
workspace does not exist after `run_in_tempdir` returns — the trace starts by
creating it and its removal is the last event on every path through the body
(normal completion, install failure, nonzero snippet exit, timeout, or a
write fault while populating the workspace), because the removal sits in a
`finally` block. -/
theorem tempdir_removed_on_all_paths (env : Env) (code : String)
    (packages : Option (List String)) (h : env.rmtreeFaults = false) :
    dirExistsAfter env.tempDirName (run_in_tempdir env code packages).2 = false ∧
    (run_in_tempdir env code packages).2.head? =
      some (Event.createdDir env.tempDirName) := by
  rw [run_in_tempdir]
  simp [h, dirExistsAfter, List.foldl_append, dirStep]

/-- Witness for C1: a concrete isolated run with a package install; the
workspace does not exist afterwards. -/
theorem tempdir_removed_on_all_paths_witness :
    (constEnv (SpawnBehavior.completes 0 " done " "") false false).rmtreeFaults = false ∧
    dirExistsAfter "/tmp/tmpw"
      (run_in_tempdir (constEnv (SpawnBehavior.completes 0 " done " "") false false)
        "console.log(1)" (some ["left-pad"])).2 = false :=
  ⟨rfl, (tempdir_removed_on_all_paths
    (constEnv (SpawnBehavior.completes 0 " done " "") false false)
    "console.log(1)" (some ["left-pad"]) rfl).1⟩

/-- An environment whose `shutil.rmtree` raises. -/
def rmFailEnv : Env := constEnv (SpawnBehavior.completes 0 " hi " "") false true

/-- Counterexample to C8: the body computes the outcome
`{returncode: 0, stdout: "hi", stderr: ""}`, but because `shutil.rmtree`
sits in a bare `finally:` block, its fault replaces that outcome — the call
raises instead of returning the computed record. -/
theorem rmtree_fault_replaces_outcome_cex :
    (run_in_tempdir_body rmFailEnv rmFailEnv.tempDirName "console.log(1)" none).1 =
      Except.ok ⟨0, "hi", ""⟩ ∧
    (run_in_tempdir rmFailEnv "console.log(1)" none).1 =
      Except.error "rmtree failed" :=
  ⟨rfl, rfl⟩

/-- Claim C8 as amended: if deleting the disposable workspace fails, the
deletion fault propagates out of `run_in_tempdir` (Python `finally`
semantics), discarding whatever outcome the body had computed. -/
theorem rmtree_fault_propagates (env : Env) (code : String)
    (packages : Option (List String)) (h : env.rmtreeFaults = true) :
    (run_in_tempdir env code packages).1 = Except.error "rmtree failed" := by
  rw [run_in_tempdir]
  simp [h]

/-- Witness for the amended C8. -/
theorem rmtree_fault_propagates_witness :
    rmFailEnv.rmtreeFaults = true ∧
    (run_in_tempdir rmFailEnv "console.log(1)" none).1 =
      Except.error "rmtree failed" :=
  ⟨rfl, rmtree_fault_propagates rmFailEnv "console.log(1)" none rfl⟩

/-- A successful isolated run used to exhibit the install-cwd bug. -/
def isolatedHappyEnv : Env := constEnv (SpawnBehavior.completes 0 "" "") false false

/-- Claim C2 (code bug): in isolated mode the dependency install is spawned
with NO working directory — `run_in_tempdir` calls
`install_dependencies(packages, install_cmd_path="npm")` without passing the
temp dir, and `install_dependencies` calls `run_command(cmd)` without `cwd` —
so `npm install` runs in the ambient working directory, not the disposable
workspace, contradicting `run_in_tempdir`'s own docstring ("the npm
installations are isolated").  The first two conjuncts evaluate the failing
input; the third shows every install spawn, in every environment, carries no
working directory. -/
theorem npm_install_ignores_workspace_cwd :
    Event.spawnAttempt ["npm", "install", "left-pad"] none ∈
      (run_in_tempdir isolatedHappyEnv "" (some ["left-pad"])).2 ∧
    Event.spawnAttempt ["npm", "install", "left-pad"]
        (some isolatedHappyEnv.tempDirName) ∉
      (run_in_tempdir isolatedHappyEnv "" (some ["left-pad"])).2 ∧
    ∀ (env : Env) (packages : Option (List String)) (p : String),
      ((install_dependencies env packages p).2.all
        (fun e => match e with
          | Event.spawnAttempt _ c => decide (c = none)
          | _ => true)) = true := by
  refine ⟨by decide, by decide, ?_⟩
  intro env packages p
  cases packages with
  | none => rfl
  | some l =>
    cases l with
    | nil => rfl
    | cons q qs => simp [install_dependencies, run_command]

/-- Claim C4: in both modes, a nonzero install exit code short-circuits: the
returned outcome carries the install's exit code and stdout, its stderr is
`"Dependency install failed:\n"` followed by the install's stderr, and the
snippet is never written to `script.js` nor handed to `node` (no interpreter
spawn).  The workspace-fault hypotheses keep the isolated run on its normal
path. -/
theorem install_failure_shortcircuits (env : Env) (code : String)
    (packages : Option (List String)) (utd : Bool) (r : Outcome)
    (h : (install_dependencies env packages "npm").1 = Except.ok r)
    (hrc : r.returncode ≠ 0)
    (hwpj : env.writeFaults (env.tempDirName ++ "/package.json") = false)
    (hrm : env.rmtreeFaults = false) :
    (code_exec_node env code packages utd).1 =
      Except.ok ⟨r.returncode, r.stdout,
        "Dependency install failed:\n" ++ r.stderr⟩ ∧
    (code_exec_node env code packages utd).2.any
      (fun e => writesScript env.tempDirName e || runsNode e) = false := by
  obtain ⟨q, qs, hp⟩ := install_ok_nonzero_packages env packages "npm" r h hrc
  subst hp
  have hnpm : writesScript env.tempDirName
      (Event.spawnAttempt ("npm" :: "install" :: q :: qs) none) = false := rfl
  have hpj : writesScript env.tempDirName
      (Event.wroteFile (env.tempDirName ++ "/package.json") pkgJsonContent) = false := by
    simp [writesScript]
    exact pkgjson_ne_script env.tempDirName
  cases utd with
  | false =>
    have hc : code_exec_node env code (some (q :: qs)) false =
        installGate (install_dependencies env (some (q :: qs)) "npm")
          (run_command env ["node", "-e", code] none) := rfl
    rw [hc, installGate_fail _ _ r h hrc]
    refine ⟨rfl, ?_⟩
    simp [install_dependencies, run_command, writesScript, runsNode]
  | true =>
    have hc : code_exec_node env code (some (q :: qs)) true =
        run_in_tempdir env code (some (q :: qs)) := rfl
    rw [hc, run_in_tempdir]
    simp only [hrm, Bool.false_eq_true, if_false]
    rw [run_in_tempdir_body]
    simp only [hwpj, Bool.false_eq_true, if_false]
    rw [installGate_fail _ _ r h hrc]
    refine ⟨rfl, ?_⟩
    simp [install_dependencies, run_command, writesScript, runsNode, hpj,
      List.any_append]
    exact pkgjson_ne_script env.tempDirName

/-- Witness for C4: a concrete isolated run whose `npm install` exits 127;
the outcome mirrors the install failure with the synthesized stderr. -/
theorem install_failure_shortcircuits_witness :
    ((install_dependencies
        (constEnv (SpawnBehavior.completes 127 " some output " " E404 not found ") false false)
        (some ["left-pad-nonexistent-xyz"]) "npm").1 =
      Except.ok ⟨127, "some output", "E404 not found"⟩) ∧
    (code_exec_node
        (constEnv (SpawnBehavior.completes 127 " some output " " E404 not found ") false false)
        "console.log(1)" (some ["left-pad-nonexistent-xyz"]) true).1 =
      Except.ok ⟨127, "some output",
        "Dependency install failed:\n" ++ "E404 not found"⟩ :=
  ⟨rfl, (install_failure_shortcircuits
      (constEnv (SpawnBehavior.completes 127 " some output " " E404 not found ") false false)
      "console.log(1)" (some ["left-pad-nonexistent-xyz"]) true
      ⟨127, "some output", "E404 not found"⟩ rfl (by decide) rfl rfl).1⟩

/-- Claim C9: in inline mode with a successful install, the snippet runs via
`["node", "-e", code]` — the code text as a single argument after `-e` — with
no working directory (`cwd` is `none` in the spawn event) and no file ever
written. -/
theorem inline_exec_uses_dash_e (env : Env) (code : String)
    (packages : Option (List String)) (r : Outcome)
    (h : (install_dependencies env packages "npm").1 = Except.ok r)
    (hr : r.returncode = 0) :
    (code_exec_node env code packages false).1 =
      (run_command env ["node", "-e", code] none).1 ∧
    (code_exec_node env code packages false).2 =
      (install_dependencies env packages "npm").2 ++
        [Event.spawnAttempt ["node", "-e", code] none] ∧
    (code_exec_node env code packages false).2.any writesAnyFile = false := by
  have hc : code_exec_node env code packages false =
      installGate (install_dependencies env packages "npm")
        (run_command env ["node", "-e", code] none) := rfl
  rw [hc, installGate_pass _ _ r h hr]
  refine ⟨rfl, rfl, ?_⟩
  cases packages with
  | none => rfl
  | some l =>
    cases l with
    | nil => rfl
    | cons q qs => rfl

/-- Witness for C9: a concrete inline run with one package; the trace is the
`npm install` spawn followed by the `node -e` spawn, with no cwd on either. -/
theorem inline_exec_uses_dash_e_witness :
    ((install_dependencies (constEnv (SpawnBehavior.completes 0 " ok " "") false false)
        (some ["left-pad"]) "npm").1 = Except.ok ⟨0, "ok", ""⟩) ∧
    (code_exec_node (constEnv (SpawnBehavior.completes 0 " ok " "") false false)
        "console.log(1)" (some ["left-pad"]) false).2 =
      (install_dependencies (constEnv (SpawnBehavior.completes 0 " ok " "") false false)
          (some ["left-pad"]) "npm").2 ++
        [Event.spawnAttempt ["node", "-e", "console.log(1)"] none] :=
  ⟨rfl, (inline_exec_uses_dash_e
      (constEnv (SpawnBehavior.completes 0 " ok " "") false false)
      "console.log(1)" (some ["left-pad"]) ⟨0, "ok", ""⟩ rfl rfl).2.1⟩

/-! ### Stream hygiene through the whole pipeline (C7) -/

theorem install_dependencies_ok_noEdge (env : Env)
    (packages : Option (List String)) (p : String) (r : Outcome)
    (h : (install_dependencies env packages p).1 = Except.ok r) :
    noEdgeWs r.stdout.data = true ∧ noEdgeWs r.stderr.data = true := by
  cases packages with
  | none =>
    injection h with h2
    rw [← h2]
    exact ⟨by decide, by decide⟩
  | some l =>
    cases l with
    | nil =>
      injection h with h2
      rw [← h2]
      exact ⟨by decide, by decide⟩
    | cons q qs => exact run_command_ok_noEdge env _ none r h

theorem scriptCont_ok_noEdge (env : Env) (td code : String) (o : Outcome)
    (h : (scriptCont env td code).1 = Except.ok o) :
    noEdgeWs o.stdout.data = true ∧ noEdgeWs o.stderr.data = true := by
  rw [scriptCont] at h
  split at h
  · simp at h
  · exact run_command_ok_noEdge env _ _ o h

theorem installGate_ok_stripped (env : Env) (packages : Option (List String))
    (cont : Except String Outcome × List Event) (o : Outcome)
    (hcont : ∀ o2 : Outcome, cont.1 = Except.ok o2 →
      noEdgeWs o2.stdout.data = true ∧ noEdgeWs o2.stderr.data = true)
    (h : (installGate (install_dependencies env packages "npm") cont).1 =
      Except.ok o) :
    noEdgeWs o.stdout.data = true ∧
    (noEdgeWs o.stderr.data = true ∨
     ∃ s : String, noEdgeWs s.data = true ∧
       o.stderr = "Dependency install failed:\n" ++ s) := by
  cases hi : (install_dependencies env packages "npm").1 with
  | error e =>
    rw [installGate_error _ _ _ hi] at h
    simp at h
  | ok r =>
    by_cases hr : r.returncode = 0
    · rw [installGate_pass _ _ _ hi hr] at h
      obtain ⟨h1, h2⟩ := hcont o h
      exact ⟨h1, Or.inl h2⟩
    · rw [installGate_fail _ _ _ hi hr] at h
      injection h with h2
      obtain ⟨h1, h3⟩ := install_dependencies_ok_noEdge env packages "npm" r hi
      rw [← h2]
      exact ⟨h1, Or.inr ⟨r.stderr, h3, rfl⟩⟩

/-- Claim C7 as amended: every outcome the public entry point returns has
exactly the three fields of `Outcome`; `stdout` never has leading or trailing
whitespace, and `stderr` never has leading or trailing whitespace either,
except on the install-failure path, where it is exactly
`"Dependency install failed:\n"` followed by the trimmed install stderr — so
it ends with that newline when the install stderr is empty.  On normal
completion of a child, the outcome is the child's real exit code with its
streams stripped. -/
theorem code_exec_node_output_stripped (env : Env) (code : String)
    (packages : Option (List String)) (utd : Bool) (o : Outcome)
    (h : (code_exec_node env code packages utd).1 = Except.ok o) :
    (noEdgeWs o.stdout.data = true ∧
     (noEdgeWs o.stderr.data = true ∨
      ∃ s : String, noEdgeWs s.data = true ∧
        o.stderr = "Dependency install failed:\n" ++ s)) ∧
    ∀ (cmd : List String) (cwd : Option String) (rc : Int) (out err : String),
      env.spawn cmd cwd timeoutSeconds = SpawnBehavior.completes rc out err →
      (run_command env cmd cwd).1 = Except.ok ⟨rc, pyStrip out, pyStrip err⟩ := by
  refine ⟨?_, ?_⟩
  · cases utd with
    | false =>
      exact installGate_ok_stripped env packages _ o
        (fun o2 h2 => run_command_ok_noEdge env ["node", "-e", code] none o2 h2) h
    | true =>
      have h2 : (run_in_tempdir env code packages).1 = Except.ok o := h
      rw [run_in_tempdir] at h2
      split at h2
      · simp at h2
      · rw [run_in_tempdir_body] at h2
        split at h2
        · simp at h2
        · exact installGate_ok_stripped env packages _ o
            (fun o2 h3 => scriptCont_ok_noEdge env env.tempDirName code o2 h3) h2
  · intro cmd cwd rc out err hb
    rw [run_command, hb]

/-- Witness for the amended C7: a concrete inline run whose child wrote
padded output; the returned stdout is the trimmed text. -/
theorem code_exec_node_output_stripped_witness :
    ((code_exec_node (constEnv (SpawnBehavior.completes 0 " hi\n" "") false false)
        "console.log(1)" none false).1 = Except.ok ⟨0, "hi", ""⟩) ∧
    noEdgeWs (Outcome.stdout ⟨0, "hi", ""⟩).data = true :=
  ⟨rfl, (code_exec_node_output_stripped
      (constEnv (SpawnBehavior.completes 0 " hi\n" "") false false)
      "console.log(1)" none false ⟨0, "hi", ""⟩ rfl).1.1⟩

/-- An inline run whose `npm install` exits 1 with empty stderr. -/
def installEmptyStderrEnv : Env := constEnv (SpawnBehavior.completes 1 "" "") false false

/-- Counterexample to C7 as stated: when the install fails with an empty
stderr, the synthesized stderr is exactly `"Dependency install failed:\n"`,
which ends in a newline — trailing whitespace in a returned field. -/
theorem install_failure_stderr_trailing_newline_cex :
    (code_exec_node installEmptyStderrEnv "x" (some ["p"]) false).1 =
      Except.ok ⟨1, "", "Dependency install failed:\n"⟩ ∧
    noEdgeWs ("Dependency install failed:\n" : String).data = false :=
  ⟨rfl, by decide⟩
